import Mathlib

/-!
# Verification of the TBI chat client (`src/ChatApp.tsx`)

A shallow embedding of the chat application's session state, conversation
store operations (`saveCurrentChat`, `loadChat`, `deleteChat`,
`createNewChat`) and the retry-driven completion client (`sendMessage`),
together with theorems about the retry/backoff state machine, the
one-send-per-session flag, request construction, and store operations.

The network is abstracted as an oracle `Nat → AttemptResult` giving the
outcome of each fetch call (2xx with or without a usable assistant message,
a non-2xx HTTP status with an optional server-supplied error message, or a
thrown transport error).  Nondeterministic environment inputs `Date.now()` and
`new Date().toISOString()` are passed in as explicit `newId` / `ts`
parameters.  React state setters are modelled by sequentially threading an
`AppState` record through each handler; the one place where the source
reads a stale closure snapshot that differs from the threaded value
(`savedChats.find` in `loadChat`, which runs after `saveCurrentChat` has
enqueued its update) is modelled with the snapshot read, as the source
behaves.
-/

namespace ChatApp

/-- Message roles, from the `ChatMessage` interface. -/
inductive Role where
  | user
  | assistant
  | system
deriving DecidableEq, Repr

/-- `interface ChatMessage { role; content }`. -/
structure ChatMessage where
  role : Role
  content : String
deriving DecidableEq, Repr

/-- `interface DocumentItem { name; type; content }`. -/
structure DocumentItem where
  name : String
  type : String
  content : String
deriving DecidableEq, Repr

/-- `interface SavedChat { id; title; messages; documents; timestamp }`. -/
structure SavedChat where
  id : String
  title : String
  messages : List ChatMessage
  documents : List DocumentItem
  timestamp : String
deriving DecidableEq, Repr

/-- The component's state variables relevant to the modelled handlers. -/
structure AppState where
  apiKey : String
  message : String
  chatHistory : List ChatMessage
  savedChats : List SavedChat
  currentChatId : String
  currentChatTitle : String
  isLoading : Bool
  error : Option String
  documents : List DocumentItem
  showTextInput : Bool
  manualText : String
  hasSentMessage : Bool
  isOnline : Bool
  isRetrying : Bool
deriving DecidableEq, Repr

def MAX_RETRIES : Nat := 5

def INITIAL_BACKOFF_MS : Nat := 1000

/-- JavaScript `String.prototype.trim()`: strip leading and trailing
whitespace. -/
def jsTrim (s : String) : String :=
  String.mk (((s.data.dropWhile Char.isWhitespace).reverse.dropWhile
    Char.isWhitespace).reverse)

/-- JavaScript `Array.prototype.join(sep)`: the elements concatenated with
`sep` between consecutive elements (`""` on the empty list). -/
def jsJoin (sep : String) : List String → String
  | [] => ""
  | a :: as => as.foldl (fun acc x => acc ++ sep ++ x) a

/-- JavaScript `str.substring(0, n)`: the first `n` characters (the whole
string when it is shorter). -/
def jsSubstringTo (s : String) (n : Nat) : String :=
  String.mk (s.data.take n)

/-- The `chatToSave` record built inside `saveCurrentChat`. -/
def mkChatToSave (newId ts : String) (s : AppState) : SavedChat :=
  { id := if s.currentChatId == "new" then newId else s.currentChatId
    title :=
      if s.currentChatTitle != "" then s.currentChatTitle
      else
        match s.chatHistory.head? with
        | some m => if m.content != "" then jsSubstringTo m.content 30 ++ "..." else "Untitled"
        | none => "Untitled"
    messages := s.chatHistory
    documents := s.documents
    timestamp := ts }

/-- `saveCurrentChat`: no-op on an empty transcript; otherwise upsert the
current chat (minting `newId` when the session id is the `"new"` sentinel,
in which case `currentChatId` is also updated to the minted id). -/
def saveCurrentChat (newId ts : String) (s : AppState) : AppState :=
  if 0 < s.chatHistory.length then
    let chatToSave := mkChatToSave newId ts s
    let filteredChats :=
      if s.currentChatId != "new" then
        s.savedChats.filter (fun chat => chat.id != s.currentChatId)
      else s.savedChats
    let s1 := { s with savedChats := chatToSave :: filteredChats }
    if s.currentChatId == "new" then { s1 with currentChatId := chatToSave.id } else s1
  else s

/-- `createNewChat`: save the current chat, then reset the session. -/
def createNewChat (newId ts : String) (s : AppState) : AppState :=
  let s1 := saveCurrentChat newId ts s
  { s1 with
      currentChatId := "new"
      currentChatTitle := "New Chat"
      chatHistory := []
      documents := []
      hasSentMessage := false }

/-- `loadChat`: save the current chat, then look the requested id up in the
`savedChats` closure snapshot (the list as it was when the handler started)
and, when found, replace the session state with the stored conversation. -/
def loadChat (newId ts chatId : String) (s : AppState) : AppState :=
  let s1 := saveCurrentChat newId ts s
  match s.savedChats.find? (fun chat => chat.id == chatId) with
  | some chatToLoad =>
      { s1 with
          currentChatId := chatToLoad.id
          currentChatTitle := chatToLoad.title
          chatHistory := chatToLoad.messages
          documents := chatToLoad.documents
          hasSentMessage := decide (0 < chatToLoad.messages.length) }
  | none => s1

/-- `deleteChat`: filter the id out of the stored list; when it was the
active chat, additionally run `createNewChat` (whose `saveCurrentChat`
sees the already-filtered list through its functional updater). -/
def deleteChat (newId ts chatId : String) (s : AppState) : AppState :=
  let s1 := { s with savedChats := s.savedChats.filter (fun chat => chat.id != chatId) }
  if s.currentChatId == chatId then createNewChat newId ts s1 else s1

/-- Outcome of one `fetch` call inside the retry loop: a 2xx response whose
parsed body may or may not contain a usable assistant message, a non-2xx
response with its status and the optional server-supplied
`error.message`, or a thrown transport error. -/
inductive AttemptResult where
  | ok (assistantMessage : Option ChatMessage)
  | httpErr (status : Nat) (serverMsg : Option String)
  | thrown (msg : String)
deriving DecidableEq, Repr

/-- An attempt outcome is retryable-shaped: HTTP 429 or 5xx, or a thrown
transport error. -/
def retryableShaped : AttemptResult → Bool
  | .ok _ => false
  | .httpErr status _ => decide (status = 429 ∨ 500 ≤ status)
  | .thrown _ => true

def emptyMessageMsg : String := "Please enter a message to send."

def noDocumentsMsg : String :=
  "Please upload a document or input text before sending a message."

def noApiKeyMsg : String := "Please enter an API key first"

def offlineMsg : String :=
  "No internet connection. Please check your connection and try again."

def noResponseMsg : String := "No response from assistant."

def maxRetriesMsg : String :=
  "Max retries reached. Failed to get a response from the assistant."

/-- The error string set when a retryable HTTP failure schedules a retry. -/
def httpRetryMsg (status : Nat) (serverMsg : Option String) (currentTry : Nat) : String :=
  let delay := INITIAL_BACKOFF_MS * 2 ^ currentTry
  "API request failed (status " ++ toString status ++
    (match serverMsg with | some m => ": " ++ m | none => "") ++
    "). Retrying in " ++ toString (delay / 1000) ++ "s... (Attempt " ++
    toString (currentTry + 1) ++ "/" ++ toString MAX_RETRIES ++ ")"

/-- The error string set when a non-2xx response terminates the send. -/
def httpFatalMsg (status : Nat) (serverMsg : Option String) (currentTry : Nat) : String :=
  "API error: " ++ toString status ++ " - " ++ serverMsg.getD "Unknown error" ++ ". " ++
    (if MAX_RETRIES ≤ currentTry then "Max retries reached." else "Non-retryable error.")

/-- The error string set when a thrown transport error schedules a retry. -/
def netRetryMsg (msg : String) (currentTry : Nat) : String :=
  let delay := INITIAL_BACKOFF_MS * 2 ^ currentTry
  "Network error: " ++ msg ++ ". Retrying in " ++ toString (delay / 1000) ++
    "s... (Attempt " ++ toString (currentTry + 1) ++ "/" ++ toString MAX_RETRIES ++ ")"

/-- The error string set when a thrown transport error terminates the send. -/
def netFatalMsg (msg : String) : String :=
  "Network error: " ++ msg ++ ". Max retries reached."

/-- Result of the retry loop: the final state, the number of `fetch` calls
performed, the backoff delays awaited (in order), and whether control
reached the code after the `while` loop. -/
structure LoopResult where
  state : AppState
  attempts : Nat
  delays : List Nat
  postLoopReached : Bool
deriving DecidableEq, Repr

/-- The `while (currentTry <= MAX_RETRIES)` loop of `sendMessage`,
including the (unreachable) code after the loop.  `attempts` counts the
`fetch` calls made so far; the oracle gives each call's outcome. -/
def retryLoop (oracle : Nat → AttemptResult) (newId ts : String)
    (currentTry : Nat) (s : AppState) (attempts : Nat) (delays : List Nat) : LoopResult :=
  if _hLoop : currentTry ≤ MAX_RETRIES then
    match oracle attempts with
    | .ok (some assistantMessage) =>
        let s2 := { s with
          chatHistory := s.chatHistory ++ [assistantMessage]
          isLoading := false
          isRetrying := false }
        ⟨saveCurrentChat newId ts s2, attempts + 1, delays, false⟩
    | .ok none =>
        let s2 := { s with
          error := some noResponseMsg
          isLoading := false
          isRetrying := false }
        ⟨saveCurrentChat newId ts s2, attempts + 1, delays, false⟩
    | .httpErr status serverMsg =>
        if hRetry : (status = 429 ∨ 500 ≤ status) ∧ currentTry < MAX_RETRIES then
          retryLoop oracle newId ts (currentTry + 1)
            { s with
                error := some (httpRetryMsg status serverMsg currentTry)
                isRetrying := true }
            (attempts + 1) (delays ++ [INITIAL_BACKOFF_MS * 2 ^ currentTry])
        else
          ⟨{ s with
              error := some (httpFatalMsg status serverMsg currentTry)
              isLoading := false
              isRetrying := false }, attempts + 1, delays, false⟩
    | .thrown msg =>
        if hRetry : currentTry < MAX_RETRIES then
          retryLoop oracle newId ts (currentTry + 1)
            { s with
                error := some (netRetryMsg msg currentTry)
                isRetrying := true }
            (attempts + 1) (delays ++ [INITIAL_BACKOFF_MS * 2 ^ currentTry])
        else
          ⟨{ s with
              error := some (netFatalMsg msg)
              isLoading := false
              isRetrying := false }, attempts + 1, delays, false⟩
  else
    let s2 := { s with isLoading := false, isRetrying := false }
    if MAX_RETRIES < currentTry then
      ⟨{ s2 with error := some maxRetriesMsg }, attempts, delays, true⟩
    else
      ⟨s2, attempts, delays, true⟩
termination_by MAX_RETRIES + 1 - currentTry
decreasing_by
  all_goals omega

/-- Result of a `sendMessage` invocation: the final state, the number of
network attempts, the backoff delays, the message list sent to the API
(`none` when no network call was made), and whether the post-loop code
ran. -/
structure SendResult where
  state : AppState
  attempts : Nat
  delays : List Nat
  payload : Option (List ChatMessage)
  postLoopReached : Bool
deriving DecidableEq, Repr

/-- `const context = documents.map((doc) => doc.content).join("\n\n")`. -/
def contextOf (s : AppState) : String :=
  jsJoin "\n\n" (s.documents.map (fun doc => doc.content))

/-- The optional synthetic `system`-role context message; present exactly
when the joined context string is truthy (non-empty). -/
def contextMessageOf (s : AppState) : Option ChatMessage :=
  if contextOf s == "" then none
  else some ⟨Role.system, "Context:\n" ++ contextOf s⟩

/-- The `apiMessages` list sent to the completion endpoint: prior
transcript, optional context message, new user message. -/
def apiMessagesOf (s : AppState) : List ChatMessage :=
  s.chatHistory ++ (contextMessageOf s).toList ++ [⟨Role.user, s.message⟩]

/-- The session state after the pre-loop setters of `sendMessage` have
run: user message appended, input cleared, loading set, error cleared,
one-send flag set, retrying cleared. -/
def startState (s : AppState) : AppState :=
  { s with
      chatHistory := s.chatHistory ++ [⟨Role.user, s.message⟩]
      message := ""
      isLoading := true
      error := none
      hasSentMessage := true
      isRetrying := false }

/-- `sendMessage`: precondition checks, request construction, then the
retry loop. -/
def sendMessage (oracle : Nat → AttemptResult) (newId ts : String) (s : AppState) : SendResult :=
  if s.hasSentMessage then ⟨s, 0, [], none, false⟩
  else if jsTrim s.message == "" then
    ⟨{ s with error := some emptyMessageMsg }, 0, [], none, false⟩
  else if s.documents.length == 0 then
    ⟨{ s with error := some noDocumentsMsg }, 0, [], none, false⟩
  else if jsTrim s.apiKey == "" then
    ⟨{ s with error := some noApiKeyMsg }, 0, [], none, false⟩
  else if !s.isOnline then
    ⟨{ s with error := some offlineMsg }, 0, [], none, false⟩
  else
    let out := retryLoop oracle newId ts 0 (startState s) 0 []
    ⟨out.state, out.attempts, out.delays, some (apiMessagesOf s), out.postLoopReached⟩

/-- The five preconditions of `sendMessage` all pass. -/
def passesPreconditions (s : AppState) : Prop :=
  s.hasSentMessage = false ∧ jsTrim s.message ≠ "" ∧ s.documents.length ≠ 0 ∧
    jsTrim s.apiKey ≠ "" ∧ s.isOnline = true

instance (s : AppState) : Decidable (passesPreconditions s) := by
  unfold passesPreconditions
  infer_instance

/-- Concrete state passing all of `sendMessage`'s preconditions. -/
def exPassState : AppState :=
  { apiKey := "k"
    message := "What is X?"
    chatHistory := []
    savedChats := []
    currentChatId := "new"
    currentChatTitle := "New Chat"
    isLoading := false
    error := none
    documents := [⟨"doc.txt", "text/plain", "X is Y."⟩]
    showTextInput := false
    manualText := ""
    hasSentMessage := false
    isOnline := true
    isRetrying := false }

/-- A session whose one-send flag is already set. -/
def exSentState : AppState := { exPassState with hasSentMessage := true }

/-- Oracle: every fetch returns HTTP 500. -/
def ex500Oracle : Nat → AttemptResult := fun _ => .httpErr 500 none

/-- Oracle: every fetch succeeds with an assistant message. -/
def exOkOracle : Nat → AttemptResult :=
  fun _ => .ok (some ⟨Role.assistant, "X is Y."⟩)

/-- Oracle: every fetch returns HTTP 404 (non-retryable). -/
def ex404Oracle : Nat → AttemptResult := fun _ => .httpErr 404 none

/-- Two attached documents, both with empty content. -/
def cexDocsState : AppState :=
  { exPassState with
      message := "hi"
      documents := [⟨"a", "text/plain", ""⟩, ⟨"b", "text/plain", ""⟩] }

/-- A session bound to the real id `"7"` with a non-empty transcript. -/
def exSavedState : AppState :=
  { exPassState with
      currentChatId := "7"
      currentChatTitle := "T"
      chatHistory := [⟨Role.user, "q"⟩]
      hasSentMessage := true }

/-- A store holding one conversation (id `"1"`, one message). -/
def exStoreState : AppState :=
  { exPassState with
      savedChats := [⟨"1", "T", [⟨Role.user, "q"⟩], [], "t0"⟩] }

/-- Concrete session used to refute the unamended C6: the active chat
(id `"1"`, non-empty transcript) is also stored. -/
def cexActiveState : AppState :=
  { apiKey := "k"
    message := ""
    chatHistory := [⟨Role.user, "q"⟩, ⟨Role.assistant, "r"⟩]
    savedChats := [⟨"1", "T", [⟨Role.user, "q"⟩, ⟨Role.assistant, "r"⟩], [], "t0"⟩]
    currentChatId := "1"
    currentChatTitle := "T"
    isLoading := false
    error := none
    documents := []
    showTextInput := false
    manualText := ""
    hasSentMessage := true
    isOnline := true
    isRetrying := false }

/-- Concrete unsaved session with a non-empty transcript used to refute
the unamended C10. -/
def cexNewState : AppState :=
  { apiKey := "k"
    message := ""
    chatHistory := [⟨Role.user, "q"⟩]
    savedChats := []
    currentChatId := "new"
    currentChatTitle := "New Chat"
    isLoading := false
    error := none
    documents := []
    showTextInput := false
    manualText := ""
    hasSentMessage := true
    isOnline := true
    isRetrying := false }

variable {oracle : Nat → AttemptResult} {newId ts : String}
variable {t a : Nat} {s : AppState} {ds : List Nat}

theorem retryLoop_ok_some (ht : t ≤ MAX_RETRIES) {m : ChatMessage}
    (hres : oracle a = .ok (some m)) :
    retryLoop oracle newId ts t s a ds =
      ⟨saveCurrentChat newId ts
        { s with
            chatHistory := s.chatHistory ++ [m]
            isLoading := false
            isRetrying := false },
        a + 1, ds, false⟩ := by
  unfold retryLoop
  rw [dif_pos ht, hres]

theorem retryLoop_ok_none (ht : t ≤ MAX_RETRIES) (hres : oracle a = .ok none) :
    retryLoop oracle newId ts t s a ds =
      ⟨saveCurrentChat newId ts
        { s with
            error := some noResponseMsg
            isLoading := false
            isRetrying := false },
        a + 1, ds, false⟩ := by
  unfold retryLoop
  rw [dif_pos ht, hres]

theorem retryLoop_http_retry (ht : t ≤ MAX_RETRIES) {status : Nat} {serverMsg : Option String}
    (hres : oracle a = .httpErr status serverMsg)
    (hR : (status = 429 ∨ 500 ≤ status) ∧ t < MAX_RETRIES) :
    retryLoop oracle newId ts t s a ds =
      retryLoop oracle newId ts (t + 1)
        { s with
            error := some (httpRetryMsg status serverMsg t)
            isRetrying := true }
        (a + 1) (ds ++ [INITIAL_BACKOFF_MS * 2 ^ t]) := by
  conv_lhs => rw [retryLoop]
  rw [dif_pos ht, hres]
  exact dif_pos hR

theorem retryLoop_http_fatal (ht : t ≤ MAX_RETRIES) {status : Nat} {serverMsg : Option String}
    (hres : oracle a = .httpErr status serverMsg)
    (hR : ¬((status = 429 ∨ 500 ≤ status) ∧ t < MAX_RETRIES)) :
    retryLoop oracle newId ts t s a ds =
      ⟨{ s with
          error := some (httpFatalMsg status serverMsg t)
          isLoading := false
          isRetrying := false }, a + 1, ds, false⟩ := by
  unfold retryLoop
  rw [dif_pos ht, hres]
  exact dif_neg hR

theorem retryLoop_thrown_retry (ht : t ≤ MAX_RETRIES) {msg : String}
    (hres : oracle a = .thrown msg) (hR : t < MAX_RETRIES) :
    retryLoop oracle newId ts t s a ds =
      retryLoop oracle newId ts (t + 1)
        { s with
            error := some (netRetryMsg msg t)
            isRetrying := true }
        (a + 1) (ds ++ [INITIAL_BACKOFF_MS * 2 ^ t]) := by
  conv_lhs => rw [retryLoop]
  rw [dif_pos ht, hres]
  exact dif_pos hR

theorem retryLoop_thrown_fatal (ht : t ≤ MAX_RETRIES) {msg : String}
    (hres : oracle a = .thrown msg) (hR : ¬ t < MAX_RETRIES) :
    retryLoop oracle newId ts t s a ds =
      ⟨{ s with
          error := some (netFatalMsg msg)
          isLoading := false
          isRetrying := false }, a + 1, ds, false⟩ := by
  unfold retryLoop
  rw [dif_pos ht, hres]
  exact dif_neg hR

theorem retryLoop_exit (ht : ¬ t ≤ MAX_RETRIES) :
    retryLoop oracle newId ts t s a ds =
      if MAX_RETRIES < t then
        ⟨{ s with
            isLoading := false
            isRetrying := false
            error := some maxRetriesMsg }, a, ds, true⟩
      else ⟨{ s with isLoading := false, isRetrying := false }, a, ds, true⟩ := by
  unfold retryLoop
  rw [dif_neg ht]

theorem saveCurrentChat_hasSentMessage (newId ts : String) (s : AppState) :
    (saveCurrentChat newId ts s).hasSentMessage = s.hasSentMessage := by
  unfold saveCurrentChat
  split
  · dsimp only
    split <;> rfl
  · rfl

theorem retryLoop_attempts_ge :
    ∀ n t (s : AppState) a (ds : List Nat), t ≤ 5 → 6 - t ≤ n →
      a + 1 ≤ (retryLoop oracle newId ts t s a ds).attempts := by
  intro n
  induction n with
  | zero => intro t s a ds ht hn; omega
  | succ n ih =>
    intro t s a ds ht hn
    cases hres : oracle a with
    | ok m =>
      cases m with
      | some msg => rw [retryLoop_ok_some ht hres]
      | none => rw [retryLoop_ok_none ht hres]
    | httpErr status serverMsg =>
      by_cases hR : (status = 429 ∨ 500 ≤ status) ∧ t < MAX_RETRIES
      · rw [retryLoop_http_retry ht hres hR]
        have hR2 : t < 5 := hR.2
        have h := ih (t + 1)
          { s with error := some (httpRetryMsg status serverMsg t), isRetrying := true }
          (a + 1) (ds ++ [INITIAL_BACKOFF_MS * 2 ^ t]) (by omega) (by omega)
        omega
      · rw [retryLoop_http_fatal ht hres hR]
    | thrown msg =>
      by_cases hR : t < MAX_RETRIES
      · rw [retryLoop_thrown_retry ht hres hR]
        have hR2 : t < 5 := hR
        have h := ih (t + 1)
          { s with error := some (netRetryMsg msg t), isRetrying := true }
          (a + 1) (ds ++ [INITIAL_BACKOFF_MS * 2 ^ t]) (by omega) (by omega)
        omega
      · rw [retryLoop_thrown_fatal ht hres hR]

theorem retryLoop_attempts_le :
    ∀ n t (s : AppState) a (ds : List Nat), 6 - t ≤ n →
      (retryLoop oracle newId ts t s a ds).attempts ≤ a + (6 - t) := by
  intro n
  induction n with
  | zero =>
    intro t s a ds hn
    have ht : ¬ t ≤ MAX_RETRIES := by simp only [MAX_RETRIES]; omega
    rw [retryLoop_exit ht]
    split <;> simp
  | succ n ih =>
    intro t s a ds hn
    by_cases ht : t ≤ MAX_RETRIES
    · have ht5 : t ≤ 5 := ht
      cases hres : oracle a with
      | ok m =>
        cases m with
        | some msg => rw [retryLoop_ok_some ht hres]; simp; omega
        | none => rw [retryLoop_ok_none ht hres]; simp; omega
      | httpErr status serverMsg =>
        by_cases hR : (status = 429 ∨ 500 ≤ status) ∧ t < MAX_RETRIES
        · rw [retryLoop_http_retry ht hres hR]
          have hR2 : t < 5 := hR.2
          have h := ih (t + 1)
            { s with error := some (httpRetryMsg status serverMsg t), isRetrying := true }
            (a + 1) (ds ++ [INITIAL_BACKOFF_MS * 2 ^ t]) (by omega)
          omega
        · rw [retryLoop_http_fatal ht hres hR]; simp; omega
      | thrown msg =>
        by_cases hR : t < MAX_RETRIES
        · rw [retryLoop_thrown_retry ht hres hR]
          have hR2 : t < 5 := hR
          have h := ih (t + 1)
            { s with error := some (netRetryMsg msg t), isRetrying := true }
            (a + 1) (ds ++ [INITIAL_BACKOFF_MS * 2 ^ t]) (by omega)
          omega
        · rw [retryLoop_thrown_fatal ht hres hR]; simp; omega
    · rw [retryLoop_exit ht]
      split <;> simp

theorem retryLoop_postLoop :
    ∀ n t (s : AppState) a (ds : List Nat), t ≤ 5 → 6 - t ≤ n →
      (retryLoop oracle newId ts t s a ds).postLoopReached = false := by
  intro n
  induction n with
  | zero => intro t s a ds ht hn; omega
  | succ n ih =>
    intro t s a ds ht hn
    have htM : t ≤ MAX_RETRIES := ht
    cases hres : oracle a with
    | ok m =>
      cases m with
      | some msg => rw [retryLoop_ok_some htM hres]
      | none => rw [retryLoop_ok_none htM hres]
    | httpErr status serverMsg =>
      by_cases hR : (status = 429 ∨ 500 ≤ status) ∧ t < MAX_RETRIES
      · rw [retryLoop_http_retry htM hres hR]
        have hR2 : t < 5 := hR.2
        exact ih (t + 1) _ (a + 1) _ (by omega) (by omega)
      · rw [retryLoop_http_fatal htM hres hR]
    | thrown msg =>
      by_cases hR : t < MAX_RETRIES
      · rw [retryLoop_thrown_retry htM hres hR]
        have hR2 : t < 5 := hR
        exact ih (t + 1) _ (a + 1) _ (by omega) (by omega)
      · rw [retryLoop_thrown_fatal htM hres hR]

theorem retryLoop_hasSentMessage :
    ∀ n t (s : AppState) a (ds : List Nat), 6 - t ≤ n →
      (retryLoop oracle newId ts t s a ds).state.hasSentMessage = s.hasSentMessage := by
  intro n
  induction n with
  | zero =>
    intro t s a ds hn
    have ht : ¬ t ≤ MAX_RETRIES := by simp only [MAX_RETRIES]; omega
    rw [retryLoop_exit ht]
    split <;> rfl
  | succ n ih =>
    intro t s a ds hn
    by_cases ht : t ≤ MAX_RETRIES
    · have ht5 : t ≤ 5 := ht
      cases hres : oracle a with
      | ok m =>
        cases m with
        | some msg => rw [retryLoop_ok_some ht hres]; exact saveCurrentChat_hasSentMessage ..
        | none => rw [retryLoop_ok_none ht hres]; exact saveCurrentChat_hasSentMessage ..
      | httpErr status serverMsg =>
        by_cases hR : (status = 429 ∨ 500 ≤ status) ∧ t < MAX_RETRIES
        · rw [retryLoop_http_retry ht hres hR]
          have hR2 : t < 5 := hR.2
          exact ih (t + 1) _ (a + 1) _ (by omega)
        · rw [retryLoop_http_fatal ht hres hR]
      | thrown msg =>
        by_cases hR : t < MAX_RETRIES
        · rw [retryLoop_thrown_retry ht hres hR]
          have hR2 : t < 5 := hR
          exact ih (t + 1) _ (a + 1) _ (by omega)
        · rw [retryLoop_thrown_fatal ht hres hR]
    · rw [retryLoop_exit ht]
      split <;> rfl

variable {oracle : Nat → AttemptResult} {newId ts : String}

theorem range_succ_shift (g : Nat → Nat) (k : Nat) :
    (List.range (k + 1)).map g = g 0 :: (List.range k).map (fun i => g (i + 1)) := by
  rw [List.range_succ_eq_map, List.map_cons, List.map_map]
  rfl

theorem retryLoop_delays :
    ∀ n t (s : AppState) a (ds : List Nat), t ≤ 5 → 6 - t ≤ n →
      ∃ k, t + k ≤ 5 ∧ (retryLoop oracle newId ts t s a ds).delays =
        ds ++ (List.range k).map (fun i => INITIAL_BACKOFF_MS * 2 ^ (t + i)) := by
  intro n
  induction n with
  | zero => intro t s a ds ht hn; omega
  | succ n ih =>
    intro t s a ds ht hn
    have htM : t ≤ MAX_RETRIES := ht
    cases hres : oracle a with
    | ok m =>
      cases m with
      | some msg =>
        rw [retryLoop_ok_some htM hres]
        exact ⟨0, by omega, by simp⟩
      | none =>
        rw [retryLoop_ok_none htM hres]
        exact ⟨0, by omega, by simp⟩
    | httpErr status serverMsg =>
      by_cases hR : (status = 429 ∨ 500 ≤ status) ∧ t < MAX_RETRIES
      · rw [retryLoop_http_retry htM hres hR]
        have hR2 : t < 5 := hR.2
        obtain ⟨k, hk, hd⟩ := ih (t + 1)
          { s with error := some (httpRetryMsg status serverMsg t), isRetrying := true }
          (a + 1) (ds ++ [INITIAL_BACKOFF_MS * 2 ^ t]) (by omega) (by omega)
        refine ⟨k + 1, by omega, ?_⟩
        rw [hd, range_succ_shift (fun i => INITIAL_BACKOFF_MS * 2 ^ (t + i))]
        simp only [List.append_assoc, List.singleton_append, Nat.add_zero]
        have : (fun i => INITIAL_BACKOFF_MS * 2 ^ (t + (i + 1))) =
            (fun i => INITIAL_BACKOFF_MS * 2 ^ (t + 1 + i)) := by
          funext i
          congr 2
          omega
        rw [this]
      · rw [retryLoop_http_fatal htM hres hR]
        exact ⟨0, by omega, by simp⟩
    | thrown msg =>
      by_cases hR : t < MAX_RETRIES
      · rw [retryLoop_thrown_retry htM hres hR]
        have hR2 : t < 5 := hR
        obtain ⟨k, hk, hd⟩ := ih (t + 1)
          { s with error := some (netRetryMsg msg t), isRetrying := true }
          (a + 1) (ds ++ [INITIAL_BACKOFF_MS * 2 ^ t]) (by omega) (by omega)
        refine ⟨k + 1, by omega, ?_⟩
        rw [hd, range_succ_shift (fun i => INITIAL_BACKOFF_MS * 2 ^ (t + i))]
        simp only [List.append_assoc, List.singleton_append, Nat.add_zero]
        have : (fun i => INITIAL_BACKOFF_MS * 2 ^ (t + (i + 1))) =
            (fun i => INITIAL_BACKOFF_MS * 2 ^ (t + 1 + i)) := by
          funext i
          congr 2
          omega
        rw [this]
      · rw [retryLoop_thrown_fatal htM hres hR]
        exact ⟨0, by omega, by simp⟩

theorem retryLoop_exhausted :
    ∀ n t (s : AppState) a (ds : List Nat), t ≤ 5 → 6 - t ≤ n →
      (∀ k, a ≤ k → k < a + (6 - t) → retryableShaped (oracle k) = true) →
      (retryLoop oracle newId ts t s a ds).attempts = a + (6 - t) ∧
        (retryLoop oracle newId ts t s a ds).state.error.isSome = true ∧
        (retryLoop oracle newId ts t s a ds).state.isLoading = false ∧
        (retryLoop oracle newId ts t s a ds).state.isRetrying = false := by
  intro n
  induction n with
  | zero => intro t s a ds ht hn; omega
  | succ n ih =>
    intro t s a ds ht hn hshape
    have htM : t ≤ MAX_RETRIES := ht
    have hsa := hshape a (le_refl a) (by omega)
    cases hres : oracle a with
    | ok m => rw [hres] at hsa; simp [retryableShaped] at hsa
    | httpErr status serverMsg =>
      rw [hres] at hsa
      have hSt : status = 429 ∨ 500 ≤ status := by
        simpa [retryableShaped] using hsa
      by_cases hR2 : t < 5
      · rw [retryLoop_http_retry htM hres ⟨hSt, hR2⟩]
        have h := ih (t + 1)
          { s with error := some (httpRetryMsg status serverMsg t), isRetrying := true }
          (a + 1) (ds ++ [INITIAL_BACKOFF_MS * 2 ^ t]) (by omega) (by omega)
          (fun k hk1 hk2 => hshape k (by omega) (by omega))
        refine ⟨by omega, h.2⟩
      · have hR : ¬((status = 429 ∨ 500 ≤ status) ∧ t < MAX_RETRIES) := by
          simp only [MAX_RETRIES]
          omega
        rw [retryLoop_http_fatal htM hres hR]
        refine ⟨by simp; omega, by simp, rfl, rfl⟩
    | thrown msg =>
      by_cases hR2 : t < 5
      · rw [retryLoop_thrown_retry htM hres hR2]
        have h := ih (t + 1)
          { s with error := some (netRetryMsg msg t), isRetrying := true }
          (a + 1) (ds ++ [INITIAL_BACKOFF_MS * 2 ^ t]) (by omega) (by omega)
          (fun k hk1 hk2 => hshape k (by omega) (by omega))
        refine ⟨by omega, h.2⟩
      · rw [retryLoop_thrown_fatal htM hres hR2]
        refine ⟨by simp; omega, by simp, rfl, rfl⟩

variable {oracle : Nat → AttemptResult} {newId ts : String} {s : AppState}

theorem sendMessage_run (h : passesPreconditions s) :
    sendMessage oracle newId ts s =
      ⟨(retryLoop oracle newId ts 0 (startState s) 0 []).state,
        (retryLoop oracle newId ts 0 (startState s) 0 []).attempts,
        (retryLoop oracle newId ts 0 (startState s) 0 []).delays,
        some (apiMessagesOf s),
        (retryLoop oracle newId ts 0 (startState s) 0 []).postLoopReached⟩ := by
  obtain ⟨h1, h2, h3, h4, h5⟩ := h
  unfold sendMessage
  rw [if_neg (by simp [h1]), if_neg (by simp [h2]), if_neg (by simp [h3]),
    if_neg (by simp [h4]), if_neg (by simp [h5])]

/-- C1: for every invocation of `sendMessage` that passes all
preconditions, at most 6 network attempts are performed; and if every
attempt fails with a retryable-shaped outcome (status 429/5xx or a thrown
transport error), the invocation terminates after exactly 6 attempts with
a terminal error (error set, loading and retrying indicators cleared). -/
theorem sendMessage_attempt_budget (oracle : Nat → AttemptResult) (newId ts : String)
    (s : AppState) (h : passesPreconditions s) :
    (sendMessage oracle newId ts s).attempts ≤ 6 ∧
      ((∀ k, k < 6 → retryableShaped (oracle k) = true) →
        (sendMessage oracle newId ts s).attempts = 6 ∧
          (sendMessage oracle newId ts s).state.error.isSome = true ∧
          (sendMessage oracle newId ts s).state.isLoading = false ∧
          (sendMessage oracle newId ts s).state.isRetrying = false) := by
  rw [sendMessage_run h]
  constructor
  · have := @retryLoop_attempts_le oracle newId ts
      6 0 (startState s) 0 [] (by omega)
    simpa using this
  · intro hsh
    have := @retryLoop_exhausted oracle newId ts
      6 0 (startState s) 0 [] (by omega) (by omega)
      (fun k hk1 hk2 => hsh k (by omega))
    simpa using this

variable {oracle : Nat → AttemptResult} {newId ts : String} {s : AppState}

theorem sendMessage_not_passes (h : ¬ passesPreconditions s) :
    (sendMessage oracle newId ts s).attempts = 0 ∧
      (sendMessage oracle newId ts s).postLoopReached = false ∧
      (sendMessage oracle newId ts s).delays = [] ∧
      (sendMessage oracle newId ts s).state.hasSentMessage = s.hasSentMessage := by
  unfold sendMessage
  split
  · exact ⟨rfl, rfl, rfl, rfl⟩
  · rename_i hb1
    split
    · exact ⟨rfl, rfl, rfl, rfl⟩
    · rename_i hb2
      split
      · exact ⟨rfl, rfl, rfl, rfl⟩
      · rename_i hb3
        split
        · exact ⟨rfl, rfl, rfl, rfl⟩
        · rename_i hb4
          split
          · exact ⟨rfl, rfl, rfl, rfl⟩
          · rename_i hb5
            exact absurd ⟨by simpa using hb1, by simpa using hb2, by simpa using hb3,
              by simpa using hb4, by simpa using hb5⟩ h

/-- C2: for every retry attempt `n` that occurs during a `sendMessage`
invocation, the backoff delay inserted before that retry equals
`1000 * 2 ^ n` milliseconds — the delays list is an initial segment of
`[1000, 2000, 4000, 8000, 16000]` for both HTTP retryable failures and
thrown transport errors (at most 5 retries ever wait). -/
theorem sendMessage_backoff_delays (oracle : Nat → AttemptResult) (newId ts : String)
    (s : AppState) :
    ∃ k, k ≤ 5 ∧ (sendMessage oracle newId ts s).delays =
      (List.range k).map (fun n => 1000 * 2 ^ n) := by
  by_cases h : passesPreconditions s
  · rw [sendMessage_run h]
    obtain ⟨k, hk, hd⟩ := @retryLoop_delays oracle newId ts
      6 0 (startState s) 0 [] (by omega) (by omega)
    refine ⟨k, by omega, ?_⟩
    dsimp only
    rw [hd]
    simp [INITIAL_BACKOFF_MS]
  · obtain ⟨-, -, hdel, -⟩ := sendMessage_not_passes h
    exact ⟨0, by omega, by rw [hdel]; simp⟩

/-- C3: a `sendMessage` call finding the one-send-per-session flag already
true returns immediately, changing no state and making no network call;
and any call that performs at least one network attempt ends with the
flag true — the retry loop never unsets it, whatever the outcome. -/
theorem sendMessage_one_send_flag (oracle : Nat → AttemptResult) (newId ts : String)
    (s : AppState) :
    (s.hasSentMessage = true → sendMessage oracle newId ts s = ⟨s, 0, [], none, false⟩) ∧
      (1 ≤ (sendMessage oracle newId ts s).attempts →
        (sendMessage oracle newId ts s).state.hasSentMessage = true) := by
  constructor
  · intro h
    unfold sendMessage
    rw [if_pos h]
  · intro ha
    by_cases h : passesPreconditions s
    · rw [sendMessage_run h]
      have := @retryLoop_hasSentMessage oracle newId ts
        6 0 (startState s) 0 [] (by omega)
      dsimp only
      rw [this]
      rfl
    · obtain ⟨hat, -, -, -⟩ := @sendMessage_not_passes oracle newId ts s h
      rw [hat] at ha
      omega

/-- C9: the code after the retry `while` loop is unreachable — on every
`sendMessage` invocation the loop exits through an in-loop `return`, so
the post-loop branch (which would set the error string
`maxRetriesMsg`) never runs. -/
theorem sendMessage_post_loop_unreachable (oracle : Nat → AttemptResult) (newId ts : String)
    (s : AppState) :
    (sendMessage oracle newId ts s).postLoopReached = false := by
  by_cases h : passesPreconditions s
  · rw [sendMessage_run h]
    exact @retryLoop_postLoop oracle newId ts
      6 0 (startState s) 0 [] (by omega) (by omega)
  · exact (sendMessage_not_passes h).2.1

variable {oracle : Nat → AttemptResult} {newId ts : String} {s : AppState}

/-- C4: inside the retry loop, a non-2xx HTTP response is classified as
retryable — error recorded, backoff delay appended, counter incremented,
loop continued — if and only if the status is 429 or 5xx and attempts
remain; otherwise the invocation terminates fatally with one more attempt
counted, no delay added, and loading/retrying cleared. -/
theorem retryLoop_http_classification (oracle : Nat → AttemptResult) (newId ts : String)
    (t : Nat) (s : AppState) (a : Nat) (ds : List Nat) (status : Nat)
    (serverMsg : Option String) (ht : t ≤ 5) (hres : oracle a = .httpErr status serverMsg) :
    (a + 2 ≤ (retryLoop oracle newId ts t s a ds).attempts ↔
        ((status = 429 ∨ 500 ≤ status) ∧ t < 5)) ∧
      (((status = 429 ∨ 500 ≤ status) ∧ t < 5) →
        retryLoop oracle newId ts t s a ds =
          retryLoop oracle newId ts (t + 1)
            { s with
                error := some (httpRetryMsg status serverMsg t)
                isRetrying := true }
            (a + 1) (ds ++ [INITIAL_BACKOFF_MS * 2 ^ t])) ∧
      (¬((status = 429 ∨ 500 ≤ status) ∧ t < 5) →
        retryLoop oracle newId ts t s a ds =
          ⟨{ s with
              error := some (httpFatalMsg status serverMsg t)
              isLoading := false
              isRetrying := false }, a + 1, ds, false⟩) := by
  have htM : t ≤ MAX_RETRIES := ht
  refine ⟨⟨?_, ?_⟩, ?_, ?_⟩
  · intro hatt
    by_contra hR
    rw [retryLoop_http_fatal htM hres hR] at hatt
    dsimp only at hatt
    omega
  · intro hR
    rw [retryLoop_http_retry htM hres hR]
    have h2 : t < 5 := hR.2
    have h := @retryLoop_attempts_ge oracle newId ts
      6 (t + 1)
      { s with error := some (httpRetryMsg status serverMsg t), isRetrying := true }
      (a + 1) (ds ++ [INITIAL_BACKOFF_MS * 2 ^ t]) (by omega) (by omega)
    omega
  · intro hR
    exact retryLoop_http_retry htM hres hR
  · intro hR
    exact retryLoop_http_fatal htM hres hR

theorem jsJoin_foldl_length_le (sep : String) :
    ∀ (as : List String) (acc : String),
      acc.length ≤ (as.foldl (fun acc x => acc ++ sep ++ x) acc).length := by
  intro as
  induction as with
  | nil => intro acc; simp
  | cons x xs ih =>
    intro acc
    have h2 := ih (acc ++ sep ++ x)
    simp only [List.foldl_cons]
    have h3 : acc.length ≤ (acc ++ sep ++ x).length := by
      simp only [String.length_append]
      omega
    omega

theorem jsJoin_two_ne_empty (a b : String) (r : List String) :
    jsJoin "\n\n" (a :: b :: r) ≠ "" := by
  intro h
  have hle : (a ++ "\n\n" ++ b).length ≤ (jsJoin "\n\n" (a :: b :: r)).length := by
    unfold jsJoin
    simp only [List.foldl_cons]
    exact jsJoin_foldl_length_le "\n\n" r (a ++ "\n\n" ++ b)
  rw [h] at hle
  have h2 : ("\n\n" : String).length = 2 := rfl
  have h0 : ("" : String).length = 0 := rfl
  simp only [String.length_append, h2, h0] at hle
  omega

theorem jsJoin_empty_iff (l : List String) :
    jsJoin "\n\n" l = "" ↔ l.length ≤ 1 ∧ ∀ x ∈ l, x = "" := by
  match l with
  | [] => simp [jsJoin]
  | [a] => simp [jsJoin]
  | a :: b :: r =>
    simp only [jsJoin_two_ne_empty a b r, false_iff, not_and, List.length_cons]
    intro hlen
    omega

theorem contextOf_ne_empty_iff (s : AppState) :
    contextOf s ≠ "" ↔ (∃ d ∈ s.documents, d.content ≠ "") ∨ 2 ≤ s.documents.length := by
  unfold contextOf
  rw [Ne, jsJoin_empty_iff]
  constructor
  · intro h
    by_cases hl : 2 ≤ s.documents.length
    · exact Or.inr hl
    · left
      by_contra hall
      push_neg at hall
      refine absurd ⟨by simp; omega, ?_⟩ h
      intro x hx
      obtain ⟨d, hd, rfl⟩ := List.mem_map.mp hx
      exact hall d hd
  · rintro (⟨d, hd, hne⟩ | hl) ⟨hlen, hall⟩
    · exact hne (hall d.content (List.mem_map_of_mem _ hd))
    · rw [List.length_map] at hlen
      omega

/-- C5(amended): for every send passing the preconditions, the outbound
message list is the prior transcript, then the optional synthetic system
message, then the new user message; the system message's content is
`"Context:\n"` followed by the documents' contents joined by a blank
line; and it is present iff that join is non-empty — equivalently, iff
some attached document has non-empty content or at least two documents
are attached. -/
theorem sendMessage_payload_construction (oracle : Nat → AttemptResult) (newId ts : String)
    (s : AppState) (h : passesPreconditions s) :
    (sendMessage oracle newId ts s).payload =
        some (s.chatHistory ++ (contextMessageOf s).toList ++ [⟨Role.user, s.message⟩]) ∧
      (∀ m ∈ (contextMessageOf s).toList,
        m = ⟨Role.system, "Context:\n" ++ contextOf s⟩) ∧
      ((contextMessageOf s).isSome = true ↔
        (∃ d ∈ s.documents, d.content ≠ "") ∨ 2 ≤ s.documents.length) := by
  refine ⟨?_, ?_, ?_⟩
  · rw [sendMessage_run h]
    rfl
  · intro m hm
    unfold contextMessageOf at hm
    split at hm
    · simp at hm
    · simpa using hm
  · rw [← contextOf_ne_empty_iff]
    unfold contextMessageOf
    split
    · rename_i hc
      simp only [Option.isSome_none, Bool.false_eq_true, false_iff]
      simpa using hc
    · rename_i hc
      simp only [Option.isSome_some, true_iff]
      simpa using hc

variable {newId ts : String} {s : AppState}

theorem saveCurrentChat_empty (newId ts : String) (s : AppState) (h : s.chatHistory = []) :
    saveCurrentChat newId ts s = s := by
  unfold saveCurrentChat
  rw [if_neg (by simp [h])]

theorem saveCurrentChat_fields (newId ts : String) (s : AppState) :
    (saveCurrentChat newId ts s).currentChatTitle = s.currentChatTitle ∧
      (saveCurrentChat newId ts s).chatHistory = s.chatHistory ∧
      (saveCurrentChat newId ts s).documents = s.documents := by
  unfold saveCurrentChat
  split
  · dsimp only
    split <;> exact ⟨rfl, rfl, rfl⟩
  · exact ⟨rfl, rfl, rfl⟩

theorem mkChatToSave_id_of_ne (newId ts : String) (s : AppState)
    (h : s.currentChatId ≠ "new") : (mkChatToSave newId ts s).id = s.currentChatId := by
  unfold mkChatToSave
  dsimp only
  rw [if_neg (by simp [h])]

theorem saveCurrentChat_form (newId ts : String) (s : AppState)
    (h1 : s.currentChatId ≠ "new") (h2 : s.chatHistory ≠ []) :
    saveCurrentChat newId ts s =
      { s with savedChats := mkChatToSave newId ts s ::
          s.savedChats.filter (fun chat => chat.id != s.currentChatId) } := by
  have hlen : 0 < s.chatHistory.length := List.length_pos.mpr h2
  unfold saveCurrentChat
  rw [if_pos hlen]
  dsimp only
  rw [if_pos (by simp [bne_iff_ne, h1] : (s.currentChatId != "new") = true),
    if_neg (by simp [h1] : ¬ (s.currentChatId == "new") = true)]

theorem saveCurrentChat_count (newId ts : String) (s : AppState)
    (h1 : s.currentChatId ≠ "new") (h2 : s.chatHistory ≠ []) :
    (((saveCurrentChat newId ts s).savedChats).filter
      (fun chat => chat.id == s.currentChatId)).length = 1 := by
  rw [saveCurrentChat_form newId ts s h1 h2]
  dsimp only
  rw [List.filter_cons_of_pos (by simp [mkChatToSave_id_of_ne newId ts s h1])]
  rw [List.filter_filter]
  have hnil : s.savedChats.filter
      (fun a => (a.id == s.currentChatId) && (a.id != s.currentChatId)) = [] := by
    rw [List.filter_eq_nil_iff]
    intro a ha
    simp [bne]
  rw [hnil]
  rfl

theorem saveCurrentChat_idem (newId ts : String) (s : AppState)
    (h1 : s.currentChatId ≠ "new") (h2 : s.chatHistory ≠ []) :
    saveCurrentChat newId ts (saveCurrentChat newId ts s) = saveCurrentChat newId ts s := by
  rw [saveCurrentChat_form newId ts s h1 h2]
  rw [saveCurrentChat_form newId ts
    { s with savedChats := mkChatToSave newId ts s ::
        s.savedChats.filter (fun chat => chat.id != s.currentChatId) } h1 h2]
  dsimp only
  congr 1
  have htail : List.filter (fun chat => chat.id != s.currentChatId)
      (List.filter (fun chat => chat.id != s.currentChatId) s.savedChats) =
      List.filter (fun chat => chat.id != s.currentChatId) s.savedChats :=
    List.filter_eq_self.mpr (fun a ha => (List.mem_filter.mp ha).2)
  rw [List.filter_cons_of_neg (by simp [bne, mkChatToSave_id_of_ne newId ts s h1]), htail]
  rfl

/-- C7: for a session bound to a real (non-sentinel) id with a non-empty
transcript, repeated `saveCurrentChat` calls with no intervening change
are idempotent with respect to stored membership: after any number `n ≥ 1`
of saves the stored list contains exactly one record with the session's
id. -/
theorem saveCurrentChat_idempotent_membership (newId ts : String) (s : AppState)
    (h1 : s.currentChatId ≠ "new") (h2 : s.chatHistory ≠ []) :
    ∀ n, 1 ≤ n →
      ((((saveCurrentChat newId ts)^[n] s).savedChats).filter
        (fun chat => chat.id == s.currentChatId)).length = 1 := by
  have hiter : ∀ m, (saveCurrentChat newId ts)^[m] (saveCurrentChat newId ts s) =
      saveCurrentChat newId ts s := by
    intro m
    induction m with
    | zero => rfl
    | succ m ih => rw [Function.iterate_succ_apply, saveCurrentChat_idem newId ts s h1 h2, ih]
  intro n hn
  obtain ⟨m, rfl⟩ : ∃ m, n = m + 1 := ⟨n - 1, by omega⟩
  rw [Function.iterate_succ_apply, hiter m]
  exact saveCurrentChat_count newId ts s h1 h2

/-- C8: loading a stored conversation sets the session's sent-flag to
true if and only if the stored transcript is non-empty. -/
theorem loadChat_sent_flag (newId ts chatId : String) (s : AppState) (c : SavedChat)
    (h : s.savedChats.find? (fun chat => chat.id == chatId) = some c) :
    ((loadChat newId ts chatId s).hasSentMessage = true ↔ c.messages ≠ []) := by
  unfold loadChat
  rw [h]
  dsimp only
  simp [List.length_pos]

/-- C10(amended): loading an id absent from the stored list first saves
the current session and otherwise leaves the session's title, transcript,
documents and sent-flag unchanged; the current id is also unchanged,
except that an unsaved (`"new"`) session with a non-empty transcript gets
the id minted by that save. -/
theorem loadChat_unknown_id_frame (newId ts chatId : String) (s : AppState)
    (h : s.savedChats.find? (fun chat => chat.id == chatId) = none) :
    loadChat newId ts chatId s = saveCurrentChat newId ts s ∧
      (loadChat newId ts chatId s).currentChatTitle = s.currentChatTitle ∧
      (loadChat newId ts chatId s).chatHistory = s.chatHistory ∧
      (loadChat newId ts chatId s).documents = s.documents ∧
      (loadChat newId ts chatId s).hasSentMessage = s.hasSentMessage ∧
      (loadChat newId ts chatId s).currentChatId =
        (if s.currentChatId = "new" ∧ s.chatHistory ≠ [] then newId else s.currentChatId) := by
  have hload : loadChat newId ts chatId s = saveCurrentChat newId ts s := by
    unfold loadChat
    rw [h]
  obtain ⟨ht, hh, hd⟩ := saveCurrentChat_fields newId ts s
  refine ⟨hload, by rw [hload, ht], by rw [hload, hh], by rw [hload, hd],
    by rw [hload, saveCurrentChat_hasSentMessage], ?_⟩
  rw [hload]
  by_cases h2 : s.chatHistory = []
  · rw [saveCurrentChat_empty newId ts s h2, if_neg (by simp [h2])]
  · by_cases h1 : s.currentChatId = "new"
    · have hlen : 0 < s.chatHistory.length := List.length_pos.mpr h2
      unfold saveCurrentChat
      rw [if_pos hlen]
      dsimp only
      rw [if_pos (by simp [h1] : (s.currentChatId == "new") = true)]
      dsimp only
      unfold mkChatToSave
      dsimp only
      rw [if_pos (by simp [h1] : (s.currentChatId == "new") = true),
        if_pos ⟨h1, h2⟩]
    · rw [saveCurrentChat_form newId ts s h1 h2, if_neg (by simp [h1])]

/-- C6(amended): `deleteChat` removes every stored record with the given
id when the id is not the active session's, or when the active transcript
is empty; when the deleted id is the active session with a non-empty
transcript, the `createNewChat` it performs re-saves that conversation
under the same id (so a record with the id remains stored); in every
active-id case the session is afterwards reset to a fresh, empty, unsent
one. -/
theorem deleteChat_removal_behavior (newId ts chatId : String) (s : AppState) :
    (s.currentChatId ≠ chatId →
        ∀ c ∈ (deleteChat newId ts chatId s).savedChats, c.id ≠ chatId) ∧
      (s.currentChatId = chatId → s.chatHistory = [] →
        ∀ c ∈ (deleteChat newId ts chatId s).savedChats, c.id ≠ chatId) ∧
      (s.currentChatId = chatId → s.chatHistory ≠ [] → chatId ≠ "new" →
        ∃ c ∈ (deleteChat newId ts chatId s).savedChats,
          c.id = chatId ∧ c.messages = s.chatHistory) ∧
      (s.currentChatId = chatId →
        (deleteChat newId ts chatId s).currentChatId = "new" ∧
          (deleteChat newId ts chatId s).currentChatTitle = "New Chat" ∧
          (deleteChat newId ts chatId s).chatHistory = [] ∧
          (deleteChat newId ts chatId s).documents = [] ∧
          (deleteChat newId ts chatId s).hasSentMessage = false) := by
  refine ⟨?_, ?_, ?_, ?_⟩
  · intro hne c hc
    unfold deleteChat at hc
    rw [if_neg (by simp [hne])] at hc
    dsimp only at hc
    have := (List.mem_filter.mp hc).2
    simpa [bne] using this
  · intro heq hh c hc
    unfold deleteChat at hc
    rw [if_pos (by simp [heq])] at hc
    unfold createNewChat at hc
    dsimp only at hc
    rw [saveCurrentChat_empty newId ts
      { s with savedChats := s.savedChats.filter (fun chat => chat.id != chatId) } hh] at hc
    dsimp only at hc
    have := (List.mem_filter.mp hc).2
    simpa [bne] using this
  · intro heq hh hnew
    unfold deleteChat
    rw [if_pos (by simp [heq])]
    unfold createNewChat
    dsimp only
    rw [saveCurrentChat_form newId ts
      { s with savedChats := s.savedChats.filter (fun chat => chat.id != chatId) }
      (by intro hx; exact hnew (heq.symm.trans hx)) hh]
    refine ⟨mkChatToSave newId ts
      { s with savedChats := s.savedChats.filter (fun chat => chat.id != chatId) },
      List.mem_cons_self .., ?_, rfl⟩
    rw [mkChatToSave_id_of_ne]
    · exact heq
    · exact fun hx => hnew (heq.symm.trans hx)
  · intro heq
    unfold deleteChat
    rw [if_pos (by simp [heq])]
    unfold createNewChat
    exact ⟨rfl, rfl, rfl, rfl, rfl⟩

/-- C6 counterexample: deleting the active conversation's id `"1"` does
not remove it from the stored list — `createNewChat`'s save re-inserts a
record with id `"1"`, so the claim that the id is no longer present
afterwards is false on this input. -/
theorem deleteChat_active_resave_cex :
    cexActiveState.savedChats.any (fun chat => chat.id == "1") = true ∧
      (deleteChat "99" "t1" "1" cexActiveState).savedChats.any
        (fun chat => chat.id == "1") = true := by
  constructor
  · decide
  · decide

/-- C10 counterexample: loading an id absent from the stored list from an
unsaved session with a non-empty transcript changes the current id (the
save-before-load mints id `"123"`), so the claim that the current id
keeps its prior value is false on this input. -/
theorem loadChat_unknown_id_cex :
    cexNewState.savedChats.find? (fun chat => chat.id == "zzz") = none ∧
      cexNewState.currentChatId = "new" ∧
      (loadChat "123" "t0" "zzz" cexNewState).currentChatId = "123" := by
  refine ⟨rfl, rfl, ?_⟩
  decide

/-- C1 witness: with every attempt answering HTTP 500 from a state
passing the preconditions, exactly 6 attempts occur and loading is
cleared. -/
theorem sendMessage_attempt_budget_witness :
    (sendMessage ex500Oracle "1" "t0" exPassState).attempts = 6 ∧
      (sendMessage ex500Oracle "1" "t0" exPassState).state.isLoading = false := by
  have h := (sendMessage_attempt_budget ex500Oracle "1" "t0" exPassState (by decide)).2
    (fun k _ => rfl)
  exact ⟨h.1, h.2.2.1⟩

/-- C3 witness: a send from a session whose flag is already set is a
no-op with zero attempts. -/
theorem sendMessage_one_send_flag_witness :
    sendMessage exOkOracle "1" "t0" exSentState = ⟨exSentState, 0, [], none, false⟩ :=
  (sendMessage_one_send_flag exOkOracle "1" "t0" exSentState).1 rfl

/-- C4 witness: a 404 on the first attempt terminates fatally with one
attempt counted and no backoff delay. -/
theorem retryLoop_http_classification_witness :
    retryLoop ex404Oracle "1" "t0" 0 exPassState 0 [] =
      ⟨{ exPassState with
          error := some (httpFatalMsg 404 none 0)
          isLoading := false
          isRetrying := false }, 1, [], false⟩ :=
  (retryLoop_http_classification ex404Oracle "1" "t0" 0 exPassState 0 [] 404 none
    (by omega) rfl).2.2 (by decide)

/-- C5 witness: the payload equation instantiated at a concrete passing
state. -/
theorem sendMessage_payload_construction_witness :
    (sendMessage exOkOracle "1" "t0" exPassState).payload =
      some (exPassState.chatHistory ++ (contextMessageOf exPassState).toList ++
        [⟨Role.user, exPassState.message⟩]) :=
  (sendMessage_payload_construction exOkOracle "1" "t0" exPassState (by decide)).1

/-- C6 witness: deleting the active id resets the session to a fresh,
empty, unsent one. -/
theorem deleteChat_removal_behavior_witness :
    (deleteChat "99" "t1" "1" cexActiveState).currentChatId = "new" ∧
      (deleteChat "99" "t1" "1" cexActiveState).currentChatTitle = "New Chat" ∧
      (deleteChat "99" "t1" "1" cexActiveState).chatHistory = [] ∧
      (deleteChat "99" "t1" "1" cexActiveState).documents = [] ∧
      (deleteChat "99" "t1" "1" cexActiveState).hasSentMessage = false :=
  (deleteChat_removal_behavior "99" "t1" "1" cexActiveState).2.2.2 rfl

/-- C7 witness: three repeated saves of a real-id session leave exactly
one stored record with that id. -/
theorem saveCurrentChat_idempotent_membership_witness :
    ((((saveCurrentChat "9" "t0")^[3] exSavedState).savedChats).filter
      (fun chat => chat.id == exSavedState.currentChatId)).length = 1 :=
  saveCurrentChat_idempotent_membership "9" "t0" exSavedState (by decide) (by decide)
    3 (by omega)

/-- C8 witness: loading the stored conversation `"1"` (one message) sets
the sent-flag. -/
theorem loadChat_sent_flag_witness :
    (loadChat "9" "t0" "1" exStoreState).hasSentMessage = true :=
  (loadChat_sent_flag "9" "t0" "1" exStoreState ⟨"1", "T", [⟨Role.user, "q"⟩], [], "t0"⟩
    rfl).mpr (by decide)

/-- C10 witness: loading an unknown id is exactly a save of the current
session. -/
theorem loadChat_unknown_id_frame_witness :
    loadChat "9" "t0" "zzz" exStoreState = saveCurrentChat "9" "t0" exStoreState :=
  (loadChat_unknown_id_frame "9" "t0" "zzz" exStoreState rfl).1

/-- C5 counterexample: with two attached documents both of empty content,
the joined context is a double newline (truthy), so the synthetic system
message is present — and its content carries the extra leading
`Context:` line — even though no document has non-empty content; the
claimed presence-iff and content equation are false on this input. -/
theorem sendMessage_context_presence_cex :
    (∀ d ∈ cexDocsState.documents, d.content = "") ∧
      contextOf cexDocsState = "\n\n" ∧
      (sendMessage exOkOracle "1" "t0" cexDocsState).payload =
        some [⟨Role.system, "Context:\n\n\n"⟩, ⟨Role.user, "hi"⟩] := by
  refine ⟨by decide, by decide, by rfl⟩

end ChatApp
